import Mathlib

/-!
Verification of the parameter / I-O reconciliation engine of
`src/chemscad/gui_modules/module_filter_reactor/module_filter_reactor.py`
(class `ChemModule`, a filter-reactor configuration dialog).

Python dicts (insertion-ordered string-keyed maps) are embedded as
association lists `List (String × α)`; the Qt table widget is a
`List Row`; widget enabled/checked states are `Bool` fields; numeric
spin-box values are `Int` (they are only copied around, never used
arithmetically).  The external `ccad.FilterReactorCAD` collaborator is
not part of the available source, so its constructor and property
setters are modelled from the specification (each such definition is
marked "Modelled from the spec"), parameterised by a `Geom` oracle that
decides which collaborator calls raise.
-/

namespace ChemSCAD

/-! ### Association-list maps (embedding of Python dicts) -/

/-- `d[k]` lookup on an association list. -/
def alistGet {α : Type} (l : List (String × α)) (k : String) : Option α :=
  match l with
  | [] => none
  | (k1, v) :: rest => if k1 = k then some v else alistGet rest k

/-- `k in d` on an association list. -/
def alistHas {α : Type} (l : List (String × α)) (k : String) : Bool :=
  match l with
  | [] => false
  | (k1, _) :: rest => if k1 = k then true else alistHas rest k

/-- `d[k] = v`: replace the entry in place when the key is present,
append a new entry otherwise (Python dict assignment keeps insertion
order). -/
def alistSet {α : Type} (l : List (String × α)) (k : String) (v : α) :
    List (String × α) :=
  match l with
  | [] => [(k, v)]
  | (k1, v1) :: rest =>
    if k1 = k then (k, v) :: rest else (k1, v1) :: alistSet rest k v

/-- `del d[k]`: remove the entry for `k` (association lists built by
`alistSet` have at most one entry per key). -/
def alistErase {α : Type} (l : List (String × α)) (k : String) :
    List (String × α) :=
  l.filter (fun e => !(e.1 = k : Bool))

/-! ### Class-level string constants of `ChemModule` -/

def SIDE_INPUT : String := "Side input"

def SIDE_OUTPUT : String := "Side output"

def DEF_OUTPUT : String := "Default output"

def TOP_LUER : String := "Luer top inlet"

def TOP_CUSTOM : String := "Custom top inlet"

/-! ### I/O descriptors

The params dicts handed to `addInput` / `addOutput` / `addTopInlet`
(after `del params["name"]`).  Source field `type_io` is embedded as
`io_type`, `external` as `is_external`. -/

/-- A side input / side output descriptor (the value stored in
`dict_inputs` / `dict_outputs`). -/
structure SideIOEntry where
  io_type : String
  height_per : Int
  angle : Int
  diameter : Int
  is_external : Bool
  connected : Bool
deriving DecidableEq

/-- A top-inlet descriptor (the value stored in `dict_top_inlets`);
`io_type` is `"custom"` or `"luer"`. -/
structure TopIOEntry where
  io_type : String
  diameter : Int
  length : Int
  walls : Int
  connected : Bool
deriving DecidableEq

/-- One row of the `table_io` Qt table: name, displayed type string,
connected string, and whether the row can be selected (Qt item flags:
`_addNewRow` clears the flags of default-output rows). -/
structure Row where
  name : String
  io_type : String
  connected : String
  selectable : Bool
deriving DecidableEq

/-- `_addNewRow`: append one row at the end of the table, mapping the
raw top-inlet type strings to their display names. -/
def addNewRow (table : List Row) (name io_ty : String)
    (connected : Bool) : List Row :=
  let disp := if io_ty = "custom" then TOP_CUSTOM
              else if io_ty = "luer" then TOP_LUER
              else io_ty
  let conn := if connected then "Connected" else "Not connected"
  table ++ [⟨name, disp, conn, !(io_ty = DEF_OUTPUT : Bool)⟩]

/-! ### The live CAD object (ccad.FilterReactorCAD)

Modelled from the spec: `FilterReactorCAD` itself is not in the
available source; the spec describes it as holding every scalar
parameter plus three name-keyed I/O collections, with one implicit
`"default"` output created at construction. -/

structure CadObj where
  volume : Int
  type_top : String
  type_bottom : String
  h_filter : Int
  d_filter : Int
  d_can : Int
  r : Int
  r_constrained : Bool
  align_top_strategy : String
  align_filter_strategy : String
  inputs : List (String × SideIOEntry)
  outputs : List (String × SideIOEntry)
  top_inlets : List (String × TopIOEntry)
deriving DecidableEq

/-! ### Editor registry state and its operations -/

/-- The registry portion of the dialog's state: the three staging
dicts, the display table, and the live CAD object being edited
(`none` while creating a new module). -/
structure EditorState where
  dict_inputs : List (String × SideIOEntry)
  dict_outputs : List (String × SideIOEntry)
  dict_top_inlets : List (String × TopIOEntry)
  io_table : List Row
  cad_obj : Option CadObj
deriving DecidableEq

/-- `addInput` (called by the AddIODialogFR collaborator): add a table
row only when the name is new for `dict_inputs`, then store the
descriptor under the name. -/
def addInput (st : EditorState) (name : String) (p : SideIOEntry) :
    EditorState :=
  let table := if alistHas st.dict_inputs name then st.io_table
               else addNewRow st.io_table name p.io_type false
  { st with io_table := table,
            dict_inputs := alistSet st.dict_inputs name p }

/-- `addOutput`: same shape as `addInput`, on `dict_outputs`. -/
def addOutput (st : EditorState) (name : String) (p : SideIOEntry) :
    EditorState :=
  let table := if alistHas st.dict_outputs name then st.io_table
               else addNewRow st.io_table name p.io_type false
  { st with io_table := table,
            dict_outputs := alistSet st.dict_outputs name p }

/-- `addTopInlet`: same shape, on `dict_top_inlets`. -/
def addTopInlet (st : EditorState) (name : String) (p : TopIOEntry) :
    EditorState :=
  let table := if alistHas st.dict_top_inlets name then st.io_table
               else addNewRow st.io_table name p.io_type false
  { st with io_table := table,
            dict_top_inlets := alistSet st.dict_top_inlets name p }

/-- The `deleteIO` slot.  `sel` is the selected row index (`none` when
no row is selected, which in the source raises `IndexError`, logs
"No I/O selected, can't delete" and returns).  Returns the new state
together with the debug-log lines emitted.  Note that when a live
`cad_obj` is present the slot deletes the descriptor from the CAD
object's own collection immediately. -/
def deleteIOSlot (st : EditorState) (sel : Option Nat) :
    EditorState × List String :=
  match sel with
  | none => (st, ["No I/O selected, can't delete"])
  | some i =>
    match st.io_table[i]? with
    | none => (st, [])
    | some row =>
      if row.io_type = DEF_OUTPUT then
        -- "We should never be here since selection is disabled for def
        -- output, but just in case, return"
        (st, [])
      else if row.io_type = SIDE_INPUT then
        ({ st with
             dict_inputs := alistErase st.dict_inputs row.name,
             cad_obj := Option.map
               (fun c => { c with inputs := alistErase c.inputs row.name })
               st.cad_obj,
             io_table := st.io_table.eraseIdx i },
         ["Filter reactor, deleting I/O " ++ row.name])
      else if row.io_type = SIDE_OUTPUT then
        ({ st with
             dict_outputs := alistErase st.dict_outputs row.name,
             cad_obj := Option.map
               (fun c => { c with outputs := alistErase c.outputs row.name })
               st.cad_obj,
             io_table := st.io_table.eraseIdx i },
         ["Filter reactor, deleting I/O " ++ row.name])
      else
        ({ st with
             dict_top_inlets := alistErase st.dict_top_inlets row.name,
             cad_obj := Option.map
               (fun c => { c with top_inlets := alistErase c.top_inlets row.name })
               st.cad_obj,
             io_table := st.io_table.eraseIdx i },
         ["Filter reactor, deleting I/O " ++ row.name])

/-! ### Table bookkeeping used by the registry claims -/

/-- The three I/O kinds as displayed in the table: side inputs are
class 0, outputs (side or default) class 1, top inlets class 2. -/
def kindClass (t : String) : Nat :=
  if t = SIDE_INPUT then 0
  else if t = SIDE_OUTPUT then 1
  else if t = DEF_OUTPUT then 1
  else 2

/-- Number of visible table rows of a given kind class. -/
def countKind (table : List Row) (k : Nat) : Nat :=
  List.countP (fun r => kindClass r.io_type == k) table

/-- Two rows denote the same registry slot: same name within the same
kind class. -/
def rowsConflict (a b : Row) : Bool :=
  (a.name = b.name : Bool) && (kindClass a.io_type == kindClass b.io_type)

/-- No two distinct table rows denote the same registry slot. -/
def nodupRows : List Row → Bool
  | [] => true
  | r :: rest => rest.all (fun x => !rowsConflict r x) && nodupRows rest

/-- Does some table row denote the same slot as `r`? -/
def hasConflictRow (table : List Row) (r : Row) : Bool :=
  table.any (fun x => rowsConflict r x)

/-- Table well-formedness maintained by the dialog: rows are unique per
(name, kind class), and the reserved name `"default"` never appears as
a plain (deletable) side-output row — `restoreIO` gives it the
`DEF_OUTPUT` type and `addOutput` never creates a second row for an
existing name. -/
def wfTable (st : EditorState) : Bool :=
  nodupRows st.io_table &&
  st.io_table.all (fun r => !((r.name = "default" : Bool) && (r.io_type = SIDE_OUTPUT : Bool)))

/-! ### Geometry collaborator oracle

Modelled from the spec: the `ccad` library's failure behaviour.  Every
collaborator call that can raise is represented by a function returning
`Option` of the raised condition; `deriveR` is the radius the geometry
collaborator derives when the radius is not user-constrained. -/

/-- The exception classes of `ccad.exceptions` relevant here. -/
inductive CadErr
  | incompat
  | constraint
  | other
deriving DecidableEq

/-- Oracle for the geometry/CAD collaborator and the owning parent. -/
structure Geom where
  threaded_tops : List String
  constructErr : CadObj → Option String
  deriveR : CadObj → Int
  addInputErr : CadObj → String → SideIOEntry → Option CadErr
  addOutputErr : CadObj → String → SideIOEntry → Option CadErr
  addTopInletErr : CadObj → String → TopIOEntry → Option CadErr
  autoPlaceErr : CadObj → Option CadErr
  refreshFails : Bool

/-- Membership of a top type in `FilterReactorCAD.THREADED_TOPS`. -/
def Geom.isThreaded (g : Geom) (t : String) : Bool :=
  g.threaded_tops.contains t

/-! ### Widget model for the constraint resolver

State of the four widgets that participate in the radius-constraint
cascade, plus the handlers `topTypeChanged` / `rConstraintChanged`
wired in `defineSlots`. -/

structure WidgetState where
  top_text : String
  check_r_state : Bool
  check_r_enabled : Bool
  spin_r_enabled : Bool
deriving DecidableEq

/-- `rConstraintChanged` slot: the radius spin box is enabled exactly
when the constraint check box is checked. -/
def rConstraintChanged (w : WidgetState) : WidgetState :=
  if w.check_r_state then { w with spin_r_enabled := true }
  else { w with spin_r_enabled := false }

/-- `QCheckBox.setCheckState`: Qt emits `stateChanged` (running the
`rConstraintChanged` slot) only when the stored state actually
changes. -/
def setCheckState (w : WidgetState) (b : Bool) : WidgetState :=
  if w.check_r_state = b then w
  else rConstraintChanged { w with check_r_state := b }

/-- The actions `topTypeChanged` performs, in order. -/
inductive Act
  | forceCheck
  | disableSpin
  | disableCheck
  | enableCheck
deriving DecidableEq

/-- `topTypeChanged` slot, with the trace of widget actions it
performs.  For a threaded top the check box is forced checked first
("do this first bc checking it calls rConstraintChanged and enables
spin radius"), then the radius spin box is disabled, then the check
box itself is disabled. -/
def topTypeChangedT (g : Geom) (w : WidgetState) :
    WidgetState × List Act :=
  if Geom.isThreaded g w.top_text then
    let w1 := setCheckState w true
    let w2 := { w1 with spin_r_enabled := false }
    ({ w2 with check_r_enabled := false },
     [Act.forceCheck, Act.disableSpin, Act.disableCheck])
  else
    ({ w with check_r_enabled := true }, [Act.enableCheck])

/-- `topTypeChanged` slot (state part). -/
def topTypeChanged (g : Geom) (w : WidgetState) : WidgetState :=
  (topTypeChangedT g w).1

/-- User events on the advanced-settings widgets. -/
inductive Ev
  | selectTop (t : String)
  | toggleCheck
deriving DecidableEq

/-- One user event.  Selecting a top fires `currentIndexChanged` (and
thus `topTypeChanged`) only when the selection actually changes;
clicking the check box is possible only while it is enabled and flips
its state, firing `rConstraintChanged`. -/
def stepEv (g : Geom) (w : WidgetState) : Ev → WidgetState
  | Ev.selectTop t =>
    if w.top_text = t then w
    else topTypeChanged g { w with top_text := t }
  | Ev.toggleCheck =>
    if w.check_r_enabled then
      rConstraintChanged { w with check_r_state := !w.check_r_state }
    else w

/-- Run a sequence of user events. -/
def runEvents (g : Geom) (w : WidgetState) : List Ev → WidgetState
  | [] => w
  | e :: rest => runEvents g (stepEv g w e) rest

/-- Initial widget state built by `_buildBasicSettings` /
`_buildAdvancedSettings` for a fresh dialog: radius spin box disabled,
check box unchecked and (by Qt default) enabled; `t0` is the initially
selected top type (handlers are connected only after `initUI`, so the
initial population fires no slot). -/
def initWidgets (t0 : String) : WidgetState :=
  { top_text := t0, check_r_state := false,
    check_r_enabled := true, spin_r_enabled := false }

/-- The spec's constraint-resolution sentence, stated as a predicate on
a widget state: the radius field is editable iff the constraint is
checked and the top is not threaded. -/
def radiusEditableSpec (g : Geom) (w : WidgetState) : Prop :=
  w.spin_r_enabled = true ↔
    (w.check_r_state = true ∧ Geom.isThreaded g w.top_text = false)

/-- The reachable-state invariant of the radius-constraint widget
cascade: the radius spin box is enabled only when the constraint box
is checked and the top is not threaded, and a threaded top forces the
checked-and-disabled configuration. -/
def widgetInv (g : Geom) (w : WidgetState) : Prop :=
  (w.spin_r_enabled = true →
    w.check_r_state = true ∧ Geom.isThreaded g w.top_text = false) ∧
  (Geom.isThreaded g w.top_text = true →
    w.check_r_state = true ∧ w.check_r_enabled = false ∧
      w.spin_r_enabled = false)

/-! ### The snapshot of form parameters (`self.params`) -/

structure Params where
  volume : Int
  type_top : String
  type_bottom : String
  h_filter : Int
  d_filter : Int
  d_can : Int
  r : Int
  r_constrained : Bool
  align_top_strategy : String
  align_filter_strategy : String
deriving DecidableEq

/-- The form widgets read by `readForm`. -/
structure Form where
  spin_vol : Int
  combo_top : String
  combo_bottom : String
  spin_h_filter : Int
  spin_d_filter : Int
  spin_d_can : Int
  spin_r : Int
  check_r_constrained : Bool
  combo_align_top : String
  combo_align_filter : String
deriving DecidableEq

/-- `readForm`: snapshot every widget value into `self.params`,
translating the alignment display labels to their internal values. -/
def readForm (f : Form) : Params :=
  { volume := f.spin_vol,
    type_top := f.combo_top,
    type_bottom := f.combo_bottom,
    h_filter := f.spin_h_filter,
    d_filter := f.spin_d_filter,
    d_can := f.spin_d_can,
    r := f.spin_r,
    r_constrained := f.check_r_constrained,
    align_top_strategy :=
      if f.combo_align_top = "Expand body" then "expand"
      else if f.combo_align_top = "Lift reactor" then "lift"
      else f.combo_align_top,
    align_filter_strategy :=
      if f.combo_align_filter = "Adapt" then "adapt"
      else if f.combo_align_filter = "Lift reactor" then "lift"
      else f.combo_align_filter }

/-! ### CAD-object construction and property setters

Modelled from the spec where `ccad` is involved. -/

/-- Modelled from the spec: the implicit mandatory `"default"` output
the collaborator creates at construction. -/
def defaultOutput : SideIOEntry :=
  { io_type := SIDE_OUTPUT, height_per := 0, angle := 0, diameter := 0,
    is_external := false, connected := false }

/-- Modelled from the spec: the `reactor.r = v` property setter — the
radius becomes the user value and is thereby constrained. -/
def setR (c : CadObj) (v : Int) : CadObj :=
  { c with r := v, r_constrained := true }

/-- Modelled from the spec: the `reactor.r_constrained = False` setter;
relaxing the constraint makes the collaborator recalculate the radius
immediately ("reactor can be recalculated properly immediately"). -/
def setRConstrainedFalse (g : Geom) (c : CadObj) : CadObj :=
  let c1 := { c with r_constrained := false }
  { c1 with r := g.deriveR c1 }

/-- Modelled from the spec: the `reactor.type_top = t` setter; for a
threaded top the radius constraint is forced true and the radius is
derived by the collaborator. -/
def setTypeTop (g : Geom) (c : CadObj) (t : String) : CadObj :=
  if Geom.isThreaded g t then
    let c1 := { c with type_top := t, r_constrained := true }
    { c1 with r := g.deriveR c1 }
  else
    { c with type_top := t }

/-- `_buildCADObject`: construct a fresh `FilterReactorCAD` from the
snapshot (the constructor itself is modelled from the spec: scalar
fields from the snapshot, an implicit default output, radius derived;
failure decided by the oracle), then set the radius only when it is
constrained and the top is not threaded. -/
def buildCADObject (g : Geom) (p : Params) : Except String CadObj :=
  let base : CadObj :=
    { volume := p.volume, type_top := p.type_top,
      type_bottom := p.type_bottom, h_filter := p.h_filter,
      d_filter := p.d_filter, d_can := p.d_can,
      r := 0, r_constrained := Geom.isThreaded g p.type_top,
      align_top_strategy := p.align_top_strategy,
      align_filter_strategy := p.align_filter_strategy,
      inputs := [], outputs := [("default", defaultOutput)],
      top_inlets := [] }
  let c0 := { base with r := g.deriveR base }
  match g.constructErr c0 with
  | some e => Except.error e
  | none =>
    if p.r_constrained && !(Geom.isThreaded g p.type_top) then
      Except.ok (setR c0 p.r)
    else
      Except.ok c0

/-- Modelled from the spec: `addInputPercentage` attaches one input or
raises. -/
def addInputPercentage (g : Geom) (c : CadObj) (name : String)
    (io : SideIOEntry) : Except CadErr CadObj :=
  match g.addInputErr c name io with
  | some e => Except.error e
  | none => Except.ok { c with inputs := alistSet c.inputs name io }

/-- Modelled from the spec: `addOutputPercentage`. -/
def addOutputPercentage (g : Geom) (c : CadObj) (name : String)
    (io : SideIOEntry) : Except CadErr CadObj :=
  match g.addOutputErr c name io with
  | some e => Except.error e
  | none => Except.ok { c with outputs := alistSet c.outputs name io }

/-- Modelled from the spec: `addCustomTopInlet`. -/
def addCustomTopInlet (g : Geom) (c : CadObj) (name : String)
    (io : TopIOEntry) : Except CadErr CadObj :=
  match g.addTopInletErr c name io with
  | some e => Except.error e
  | none =>
    Except.ok { c with top_inlets := alistSet c.top_inlets name io }

/-! ### The I/O build steps of the commit engine -/

/-- `buildInputs`: attach every staged input in order; an exception
stops the loop, leaving the inputs attached so far on the (mutated in
place) object. -/
def buildInputs (g : Geom) (d : List (String × SideIOEntry))
    (c : CadObj) : CadObj × Option CadErr :=
  match d with
  | [] => (c, none)
  | (n, io) :: rest =>
    match addInputPercentage g c n io with
    | Except.error e => (c, some e)
    | Except.ok c1 => buildInputs g rest c1

/-- `buildOutputs`: attach every staged output except the reserved name
`"default"` (the collaborator creates that one implicitly). -/
def buildOutputs (g : Geom) (d : List (String × SideIOEntry))
    (c : CadObj) : CadObj × Option CadErr :=
  match d with
  | [] => (c, none)
  | (n, io) :: rest =>
    if n = "default" then buildOutputs g rest c
    else
      match addOutputPercentage g c n io with
      | Except.error e => (c, some e)
      | Except.ok c1 => buildOutputs g rest c1

/-- The attachment loop of `buildTopInlets` (before auto-placement). -/
def attachTopInlets (g : Geom) (d : List (String × TopIOEntry))
    (c : CadObj) : CadObj × Option CadErr :=
  match d with
  | [] => (c, none)
  | (n, io) :: rest =>
    match addCustomTopInlet g c n io with
    | Except.error e => (c, some e)
    | Except.ok c1 => attachTopInlets g rest c1

/-- `buildTopInlets`: attach the staged top inlets, then auto-place
them.  An `IncompatibilityError` from attachment is swallowed (debug
log only, early return, auto-placement not attempted); a
`ConstraintError` from `autoPlaceTopInlets` reports an
"Auto-placement error" dialog and returns without raising; every other
exception propagates.  Result: final object, reported dialog titles,
propagated exception. -/
def buildTopInlets (g : Geom) (d : List (String × TopIOEntry))
    (c : CadObj) : CadObj × List String × Option CadErr :=
  match attachTopInlets g d c with
  | (c1, some CadErr.incompat) => (c1, [], none)
  | (c1, some e) => (c1, [], some e)
  | (c1, none) =>
    match g.autoPlaceErr c1 with
    | some CadErr.constraint => (c1, ["Auto-placement error"], none)
    | some e => (c1, [], some e)
    | none => (c1, [], none)

/-- The body of the `try` block shared by `_buildNewModule` and
`_updateModule`: `self.buildInputs(obj); self.buildOutputs(obj);
self.buildTopInlets(obj)`.  Returns the object as mutated so far, the
dialog titles reported inside `buildTopInlets`, and the first
propagated exception, if any. -/
def buildIOPhase (g : Geom) (din dout : List (String × SideIOEntry))
    (dtop : List (String × TopIOEntry)) (c : CadObj) :
    CadObj × List String × Option CadErr :=
  match buildInputs g din c with
  | (c1, some e) => (c1, [], some e)
  | (c1, none) =>
    match buildOutputs g dout c1 with
    | (c2, some e) => (c2, [], some e)
    | (c2, none) => buildTopInlets g dtop c2

/-- Did `_buildCADObject` succeed on this snapshot? -/
def buildOk (g : Geom) (p : Params) : Bool :=
  match buildCADObject g p with
  | Except.ok _ => true
  | Except.error _ => false

/-! ### Commit engine: create path -/

/-- Outcome of `_buildNewModule`: the object handed to
`parent.buildModule` (if any), the critical-dialog titles reported,
how many times `parent.buildModule` was invoked, and the returned
boolean. -/
structure CreateResult where
  built : Option CadObj
  messages : List String
  buildModuleCalls : Nat
  returned : Bool
deriving DecidableEq

/-- `_buildNewModule`: build a brand-new CAD object from the snapshot;
a construction failure reports "Creation error" and aborts with no
object kept; then attach inputs, outputs, top inlets — an exception
from any of them reports "I/Os error" and aborts, discarding the new
object; on success hand the object to `parent.buildModule`. -/
def buildNewModule (g : Geom) (p : Params)
    (din dout : List (String × SideIOEntry))
    (dtop : List (String × TopIOEntry)) : CreateResult :=
  match buildCADObject g p with
  | Except.error _ => ⟨none, ["Creation error"], 0, false⟩
  | Except.ok reactor =>
    match buildIOPhase g din dout dtop reactor with
    | (_, msgs, some _) => ⟨none, msgs ++ ["I/Os error"], 0, false⟩
    | (c3, msgs, none) => ⟨some c3, msgs, 1, true⟩

/-! ### Commit engine: update path -/

/-- The scalar-field assignments `_updateModule` performs on the live
object, in source order. -/
inductive FieldEv
  | fR
  | fRConstrained
  | fVolume
  | fTypeTop
  | fTypeBottom
  | fDCan
  | fHFilter
  | fDFilter
  | fAlignTop
  | fAlignFilter
deriving DecidableEq

/-- Outcome of `_updateModule`: the live object after the attempt, the
critical-dialog titles reported, the ordered trace of scalar-field
assignments applied to the live object, whether `parent.refresh` was
reached, and the returned boolean. -/
structure UpdateResult where
  cad : CadObj
  messages : List String
  trace : List FieldEv
  refreshCalled : Bool
  returned : Bool
deriving DecidableEq

/-- The scalar-field assignments of `_updateModule`, in source order:
first the radius / radius-constraint update (the radius is set only
when constrained and the top is not threaded, otherwise the constraint
is relaxed), then every remaining scalar field from the snapshot.
Returns the mutated object together with the ordered assignment
trace. -/
def applyScalars (g : Geom) (p : Params) (cad : CadObj) :
    CadObj × List FieldEv :=
  let first :=
    if p.r_constrained && !(Geom.isThreaded g p.type_top) then
      (setR cad p.r, [FieldEv.fR])
    else
      (setRConstrainedFalse g cad, [FieldEv.fRConstrained])
  let c2 := { first.1 with volume := p.volume }
  let c3 := setTypeTop g c2 p.type_top
  let c4 := { c3 with type_bottom := p.type_bottom }
  let c5 := { c4 with d_can := p.d_can }
  let c6 := { c5 with h_filter := p.h_filter }
  let c7 := { c6 with d_filter := p.d_filter }
  let c8 := { c7 with align_top_strategy := p.align_top_strategy }
  let c9 := { c8 with align_filter_strategy := p.align_filter_strategy }
  (c9, first.2 ++ [FieldEv.fVolume, FieldEv.fTypeTop, FieldEv.fTypeBottom,
                   FieldEv.fDCan, FieldEv.fHFilter, FieldEv.fDFilter,
                   FieldEv.fAlignTop, FieldEv.fAlignFilter])

/-- `_updateModule`: first build a disposable validation object with
the exact construction call of the create path; on failure report
"Update error" and abort with the live object untouched.  Then apply
the scalar fields (`applyScalars`), then re-attach the staged I/O
(failure reports "I/Os error" without rolling the scalars back), then
ask the parent to refresh (failure reports "Refresh error"). -/
def updateModule (g : Geom) (p : Params) (cad : CadObj)
    (din dout : List (String × SideIOEntry))
    (dtop : List (String × TopIOEntry)) : UpdateResult :=
  match buildCADObject g p with
  | Except.error _ => ⟨cad, ["Update error"], [], false, false⟩
  | Except.ok _ =>
    match applyScalars g p cad with
    | (c9, tr) =>
      match buildIOPhase g din dout dtop c9 with
      | (d, msgs, some _) => ⟨d, msgs ++ ["I/Os error"], tr, false, false⟩
      | (d, msgs, none) =>
        if g.refreshFails then
          ⟨d, msgs ++ ["Refresh error"], tr, true, false⟩
        else
          ⟨d, msgs, tr, true, true⟩

/-! ### The `buildModule` slot (OK button) -/

/-- Overall outcome of one click of the OK button. -/
structure CommitOutcome where
  live : Option CadObj
  handed : Option CadObj
  buildModuleCalls : Nat
  refreshAttempted : Bool
  messages : List String
  closed : Bool
  params : Params
deriving DecidableEq

/-- The `buildModule` slot: read the form; when not in test mode
(`parent is None` sets `self.test = True`) run the create path if
there is no live object, the update path otherwise; finally close the
dialog. -/
def buildModuleSlot (g : Geom) (test : Bool) (cad : Option CadObj)
    (din dout : List (String × SideIOEntry))
    (dtop : List (String × TopIOEntry)) (f : Form) : CommitOutcome :=
  let p := readForm f
  if test then
    ⟨cad, none, 0, false, [], true, p⟩
  else
    match cad with
    | none =>
      let r := buildNewModule g p din dout dtop
      ⟨none, r.built, r.buildModuleCalls, false, r.messages, true, p⟩
    | some c =>
      let r := updateModule g p c din dout dtop
      ⟨some r.cad, none, 0, r.refreshCalled, r.messages, true, p⟩

/-! ### Derived observations used by the theorems -/

/-- The scalar-parameter portion of a CAD object, as a `Params`
record. -/
def scalarsOf (c : CadObj) : Params :=
  { volume := c.volume, type_top := c.type_top,
    type_bottom := c.type_bottom, h_filter := c.h_filter,
    d_filter := c.d_filter, d_can := c.d_can, r := c.r,
    r_constrained := c.r_constrained,
    align_top_strategy := c.align_top_strategy,
    align_filter_strategy := c.align_filter_strategy }

/-! ### Concrete fixtures used to instantiate the theorems -/

/-- A staged side input (height fraction 50 %, angle 0, diameter 2). -/
def sampleIn : SideIOEntry :=
  { io_type := SIDE_INPUT, height_per := 50, angle := 0, diameter := 2,
    is_external := false, connected := false }

/-- A staged side output. -/
def sampleOut : SideIOEntry :=
  { io_type := SIDE_OUTPUT, height_per := 30, angle := 90, diameter := 3,
    is_external := false, connected := false }

/-- A staged custom top inlet. -/
def sampleTop : TopIOEntry :=
  { io_type := "custom", diameter := 4, length := 10, walls := 2,
    connected := false }

/-- A snapshot of form parameters with a non-threaded top. -/
def sampleParams : Params :=
  { volume := 20, type_top := "A", type_bottom := "flat", h_filter := 3,
    d_filter := 20, d_can := 5, r := 5, r_constrained := true,
    align_top_strategy := "expand", align_filter_strategy := "adapt" }

/-- The same snapshot with the top switched to a threaded style. -/
def paramsThreaded : Params := { sampleParams with type_top := "Threaded cap" }

/-- A live CAD object with a non-threaded top and a constrained
radius, one attached input and the implicit default output. -/
def sampleCad : CadObj :=
  { volume := 20, type_top := "A", type_bottom := "flat", h_filter := 3,
    d_filter := 20, d_can := 5, r := 9, r_constrained := true,
    align_top_strategy := "expand", align_filter_strategy := "adapt",
    inputs := [("a", sampleIn)], outputs := [("default", defaultOutput)],
    top_inlets := [] }

/-- An oracle on which every collaborator call succeeds;
`"Threaded cap"` is the only threaded top style and the derived radius
is always 7. -/
def geomOk : Geom :=
  { threaded_tops := ["Threaded cap"],
    constructErr := fun _ => none,
    deriveR := fun _ => 7,
    addInputErr := fun _ _ _ => none,
    addOutputErr := fun _ _ _ => none,
    addTopInletErr := fun _ _ _ => none,
    autoPlaceErr := fun _ => none,
    refreshFails := false }

/-- Oracle on which object construction always raises. -/
def geomBuildFail : Geom :=
  { geomOk with constructErr := fun _ => some "bad parameters" }

/-- Oracle on which attaching an input always raises. -/
def geomInputFail : Geom :=
  { geomOk with addInputErr := fun _ _ _ => some CadErr.other }

/-- Oracle on which attaching a top inlet raises an incompatibility. -/
def geomIncompat : Geom :=
  { geomOk with addTopInletErr := fun _ _ _ => some CadErr.incompat }

/-- Oracle on which top-inlet auto-placement raises a collision. -/
def geomCollide : Geom :=
  { geomOk with autoPlaceErr := fun _ => some CadErr.constraint }

/-- Oracle on which the parent refresh call raises. -/
def geomRefreshFail : Geom := { geomOk with refreshFails := true }

/-- The table row of the staged side input `"a"`. -/
def rowIn : Row :=
  { name := "a", io_type := SIDE_INPUT, connected := "Not connected",
    selectable := true }

/-- The table row of the reserved default output (unselectable). -/
def rowDef : Row :=
  { name := "default", io_type := DEF_OUTPUT,
    connected := "Not connected", selectable := false }

/-- An editor state for a live module being edited: the staged dicts
and table as `restoreIO` would build them, with the live CAD object
attached. -/
def sampleEditor : EditorState :=
  { dict_inputs := [("a", sampleIn)],
    dict_outputs := [("default", sampleOut)],
    dict_top_inlets := [],
    io_table := [rowIn, rowDef],
    cad_obj := some sampleCad }

/-- A widget state whose selected top is the threaded style. -/
def widgetThreaded : WidgetState :=
  { top_text := "Threaded cap", check_r_state := false,
    check_r_enabled := true, spin_r_enabled := true }

/-! ## Helper lemmas -/

theorem alistGet_set_self {α : Type} (l : List (String × α))
    (k : String) (v : α) : alistGet (alistSet l k v) k = some v := by
  induction l with
  | nil => simp [alistSet, alistGet]
  | cons e rest ih =>
    obtain ⟨k1, v1⟩ := e
    by_cases h1 : k1 = k
    · simp [alistSet, h1, alistGet]
    · simp [alistSet, h1, alistGet, ih]

theorem alistGet_set_ne {α : Type} (l : List (String × α))
    (k k' : String) (v : α) (h : k' ≠ k) :
    alistGet (alistSet l k v) k' = alistGet l k' := by
  induction l with
  | nil => simp [alistSet, alistGet, Ne.symm h]
  | cons e rest ih =>
    obtain ⟨k1, v1⟩ := e
    by_cases h1 : k1 = k
    · subst h1
      simp [alistSet, alistGet, Ne.symm h]
    · by_cases h2 : k1 = k'
      · simp [alistSet, h1, alistGet, h2, h]
      · simp [alistSet, h1, alistGet, h2, ih]

theorem alistSet_length_of_has {α : Type} (l : List (String × α))
    (k : String) (v : α) (h : alistHas l k = true) :
    (alistSet l k v).length = l.length := by
  induction l with
  | nil => simp [alistHas] at h
  | cons e rest ih =>
    obtain ⟨k1, v1⟩ := e
    by_cases h1 : k1 = k
    · simp [alistSet, h1]
    · simp only [alistHas, if_neg h1] at h
      simp [alistSet, h1, ih h]

theorem alistHas_filter_false {α : Type} (l : List (String × α))
    (p : String × α → Bool) (k : String)
    (h : ∀ v : α, p (k, v) = false) :
    alistHas (l.filter p) k = false := by
  induction l with
  | nil => simp [alistHas]
  | cons e rest ih =>
    by_cases h1 : p e
    · rw [List.filter_cons_of_pos h1]
      by_cases h2 : e.1 = k
      · exfalso
        have : p (k, e.2) = false := h e.2
        rw [← h2] at this
        simp [h1] at this
      · simp only [alistHas, if_neg h2]
        exact ih
    · rw [List.filter_cons_of_neg (by simpa using h1)]
      exact ih

theorem alistHas_erase_self {α : Type} (l : List (String × α))
    (k : String) : alistHas (alistErase l k) k = false := by
  unfold alistErase
  exact alistHas_filter_false l _ k (fun v => by simp)

theorem alistHas_erase_ne {α : Type} (l : List (String × α))
    (k k' : String) (h : k' ≠ k) :
    alistHas (alistErase l k) k' = alistHas l k' := by
  induction l with
  | nil => simp [alistErase, alistHas]
  | cons e rest ih =>
    unfold alistErase at ih ⊢
    by_cases h1 : e.1 = k
    · rw [List.filter_cons_of_neg (by simp [h1])]
      simp only [alistHas]
      rw [if_neg (by rw [h1]; exact Ne.symm h)]
      exact ih
    · rw [List.filter_cons_of_pos (by simp [h1])]
      simp only [alistHas]
      by_cases h2 : e.1 = k'
      · simp [h2]
      · simp only [if_neg h2]
        exact ih

theorem countKind_addNewRow (tbl : List Row) (n io_ty : String)
    (cn : Bool) (k : Nat)
    (h : kindClass (if io_ty = "custom" then TOP_CUSTOM
                    else if io_ty = "luer" then TOP_LUER
                    else io_ty) = k) :
    countKind (addNewRow tbl n io_ty cn) k = countKind tbl k + 1 := by
  simp [addNewRow, countKind, List.countP_append, List.countP_cons, h]

theorem addNewRow_length (tbl : List Row) (n io_ty : String)
    (cn : Bool) :
    (addNewRow tbl n io_ty cn).length = tbl.length + 1 := by
  simp [addNewRow]

theorem sideInput_ne_defOutput : (SIDE_INPUT = DEF_OUTPUT) = False := by
  simp [SIDE_INPUT, DEF_OUTPUT]

theorem sideOutput_ne_defOutput : (SIDE_OUTPUT = DEF_OUTPUT) = False := by
  simp [SIDE_OUTPUT, DEF_OUTPUT]

theorem sideOutput_ne_sideInput : (SIDE_OUTPUT = SIDE_INPUT) = False := by
  simp [SIDE_OUTPUT, SIDE_INPUT]

theorem rowsConflict_symm (a b : Row) :
    rowsConflict a b = rowsConflict b a := by
  simp only [rowsConflict]
  rw [decide_eq_decide.mpr (Iff.intro Eq.symm Eq.symm), Bool.beq_comm]

theorem nodupRows_head_all (r : Row) (rest : List Row)
    (h : nodupRows (r :: rest) = true) :
    ∀ x ∈ rest, rowsConflict r x = false := by
  simp only [nodupRows, Bool.and_eq_true, List.all_eq_true] at h
  intro x hx
  have := h.1 x hx
  simpa using this

theorem nodupRows_tail (r : Row) (rest : List Row)
    (h : nodupRows (r :: rest) = true) : nodupRows rest = true := by
  simp only [nodupRows, Bool.and_eq_true] at h
  exact h.2

theorem nodupRows_eraseIdx (l : List Row) (i : Nat) (r : Row)
    (hnd : nodupRows l = true) (hget : l[i]? = some r) :
    ∀ x ∈ l.eraseIdx i, rowsConflict r x = false := by
  induction l generalizing i with
  | nil => simp at hget
  | cons a t ih =>
    cases i with
    | zero =>
      rw [List.getElem?_cons_zero] at hget
      have ha : a = r := Option.some_inj.mp hget
      rw [List.eraseIdx_cons_zero]
      intro x hx
      rw [← ha]
      exact nodupRows_head_all a t hnd x hx
    | succ n =>
      rw [List.getElem?_cons_succ] at hget
      rw [List.eraseIdx_cons_succ]
      intro x hx
      rcases List.mem_cons.mp hx with hx1 | hx2
      · rw [hx1, rowsConflict_symm]
        exact nodupRows_head_all a t hnd r (List.getElem?_mem hget)
      · exact ih n (nodupRows_tail a t hnd) hget x hx2

theorem hasConflictRow_eq_false (table : List Row) (r : Row)
    (h : ∀ x ∈ table, rowsConflict r x = false) :
    hasConflictRow table r = false := by
  simp only [hasConflictRow, List.any_eq_false]
  intro x hx
  simp [h x hx]

/-! Preservation of the scalar fields by the attachment loops: the
collaborator attach calls only touch the I/O collections. -/

theorem buildInputs_scalars (g : Geom) (d : List (String × SideIOEntry)) :
    ∀ c : CadObj, scalarsOf (buildInputs g d c).1 = scalarsOf c := by
  induction d with
  | nil => intro c; rfl
  | cons e rest ih =>
    intro c
    obtain ⟨n, io⟩ := e
    simp only [buildInputs, addInputPercentage]
    cases g.addInputErr c n io with
    | some err => rfl
    | none => rw [ih]; rfl

theorem buildOutputs_scalars (g : Geom) (d : List (String × SideIOEntry)) :
    ∀ c : CadObj, scalarsOf (buildOutputs g d c).1 = scalarsOf c := by
  induction d with
  | nil => intro c; rfl
  | cons e rest ih =>
    intro c
    obtain ⟨n, io⟩ := e
    simp only [buildOutputs, addOutputPercentage]
    by_cases hd : n = "default"
    · simp only [hd, if_pos rfl]
      exact ih c
    · simp only [if_neg hd]
      cases g.addOutputErr c n io with
      | some err => rfl
      | none => rw [ih]; rfl

theorem attachTopInlets_scalars (g : Geom)
    (d : List (String × TopIOEntry)) :
    ∀ c : CadObj, scalarsOf (attachTopInlets g d c).1 = scalarsOf c := by
  induction d with
  | nil => intro c; rfl
  | cons e rest ih =>
    intro c
    obtain ⟨n, io⟩ := e
    simp only [attachTopInlets, addCustomTopInlet]
    cases g.addTopInletErr c n io with
    | some err => rfl
    | none => rw [ih]; rfl

theorem buildTopInlets_scalars (g : Geom)
    (d : List (String × TopIOEntry)) (c : CadObj) :
    scalarsOf (buildTopInlets g d c).1 = scalarsOf c := by
  have hsc := attachTopInlets_scalars g d c
  rcases hat : attachTopInlets g d c with ⟨c1, err⟩
  rw [hat] at hsc
  cases err with
  | none =>
    cases hap : g.autoPlaceErr c1 with
    | none => simp only [buildTopInlets, hat, hap]; exact hsc
    | some e =>
      cases e <;> simp only [buildTopInlets, hat, hap] <;> exact hsc
  | some e => cases e <;> simp only [buildTopInlets, hat] <;> exact hsc

theorem buildIOPhase_scalars (g : Geom)
    (din dout : List (String × SideIOEntry))
    (dtop : List (String × TopIOEntry)) (c : CadObj) :
    scalarsOf (buildIOPhase g din dout dtop c).1 = scalarsOf c := by
  have hs1 := buildInputs_scalars g din c
  rcases h1 : buildInputs g din c with ⟨c1, e1⟩
  rw [h1] at hs1
  cases e1 with
  | some e => simp only [buildIOPhase, h1]; exact hs1
  | none =>
    have hs2 := buildOutputs_scalars g dout c1
    rcases h2 : buildOutputs g dout c1 with ⟨c2, e2⟩
    rw [h2] at hs2
    cases e2 with
    | some e => simp only [buildIOPhase, h1, h2]; exact hs2.trans hs1
    | none =>
      simp only [buildIOPhase, h1, h2]
      exact (buildTopInlets_scalars g dtop c2).trans (hs2.trans hs1)

/-! Preservation of already-attached inputs/outputs by the top-inlet
build step. -/

theorem attachTopInlets_inputs_outputs (g : Geom)
    (d : List (String × TopIOEntry)) :
    ∀ c : CadObj, (attachTopInlets g d c).1.inputs = c.inputs ∧
      (attachTopInlets g d c).1.outputs = c.outputs := by
  induction d with
  | nil => intro c; exact ⟨rfl, rfl⟩
  | cons e rest ih =>
    intro c
    obtain ⟨n, io⟩ := e
    simp only [attachTopInlets, addCustomTopInlet]
    cases g.addTopInletErr c n io with
    | some err => exact ⟨rfl, rfl⟩
    | none => exact ih _

theorem buildTopInlets_inputs_outputs (g : Geom)
    (d : List (String × TopIOEntry)) (c : CadObj) :
    (buildTopInlets g d c).1.inputs = c.inputs ∧
      (buildTopInlets g d c).1.outputs = c.outputs := by
  have hio := attachTopInlets_inputs_outputs g d c
  rcases hat : attachTopInlets g d c with ⟨c1, err⟩
  rw [hat] at hio
  cases err with
  | none =>
    cases hap : g.autoPlaceErr c1 with
    | none => simp only [buildTopInlets, hat, hap]; exact hio
    | some e =>
      cases e <;> simp only [buildTopInlets, hat, hap] <;> exact hio
  | some e => cases e <;> simp only [buildTopInlets, hat] <;> exact hio

/-! The `"default"` output entry of the object is never touched by
`buildOutputs` (the loop skips the reserved name). -/

theorem buildOutputs_default (g : Geom)
    (d : List (String × SideIOEntry)) :
    ∀ c : CadObj,
      alistGet (buildOutputs g d c).1.outputs "default" =
        alistGet c.outputs "default" := by
  induction d with
  | nil => intro c; rfl
  | cons e rest ih =>
    intro c
    obtain ⟨n, io⟩ := e
    simp only [buildOutputs, addOutputPercentage]
    by_cases hd : n = "default"
    · simp only [hd, if_pos rfl]
      exact ih c
    · simp only [if_neg hd]
      cases g.addOutputErr c n io with
      | some err => rfl
      | none =>
        rw [ih]
        simp only []
        exact alistGet_set_ne c.outputs n "default" io (fun h => hd h.symm)

/-! Reported-message bookkeeping of the I/O phase. -/

theorem buildTopInlets_msgs (g : Geom)
    (d : List (String × TopIOEntry)) (c : CadObj) :
    (buildTopInlets g d c).2.1 = [] ∨
      ((buildTopInlets g d c).2.1 = ["Auto-placement error"] ∧
        (buildTopInlets g d c).2.2 = none) := by
  rcases hat : attachTopInlets g d c with ⟨c1, err⟩
  cases err with
  | none =>
    cases hap : g.autoPlaceErr c1 with
    | none => simp [buildTopInlets, hat, hap]
    | some e => cases e <;> simp [buildTopInlets, hat, hap]
  | some e => cases e <;> simp [buildTopInlets, hat]

theorem buildIOPhase_msgs (g : Geom)
    (din dout : List (String × SideIOEntry))
    (dtop : List (String × TopIOEntry)) (c : CadObj) :
    (buildIOPhase g din dout dtop c).2.1 = [] ∨
      ((buildIOPhase g din dout dtop c).2.1 = ["Auto-placement error"] ∧
        (buildIOPhase g din dout dtop c).2.2 = none) := by
  rcases h1 : buildInputs g din c with ⟨c1, e1⟩
  cases e1 with
  | some e => simp [buildIOPhase, h1]
  | none =>
    rcases h2 : buildOutputs g dout c1 with ⟨c2, e2⟩
    cases e2 with
    | some e => simp [buildIOPhase, h1, h2]
    | none =>
      simp only [buildIOPhase, h1, h2]
      exact buildTopInlets_msgs g dtop c2

/-! Behaviour of the scalar-assignment phase of `_updateModule`. -/

theorem applyScalars_fields (g : Geom) (p : Params) (cad : CadObj) :
    (applyScalars g p cad).1.volume = p.volume ∧
    (applyScalars g p cad).1.type_top = p.type_top ∧
    (applyScalars g p cad).1.type_bottom = p.type_bottom ∧
    (applyScalars g p cad).1.d_can = p.d_can ∧
    (applyScalars g p cad).1.h_filter = p.h_filter ∧
    (applyScalars g p cad).1.d_filter = p.d_filter ∧
    (applyScalars g p cad).1.align_top_strategy = p.align_top_strategy ∧
    (applyScalars g p cad).1.align_filter_strategy = p.align_filter_strategy := by
  cases hrc : p.r_constrained <;>
    cases hth : Geom.isThreaded g p.type_top <;>
      simp [applyScalars, setTypeTop, setR, setRConstrainedFalse, hrc, hth]

theorem applyScalars_threaded (g : Geom) (p : Params) (cad : CadObj)
    (h : Geom.isThreaded g p.type_top = true) :
    (applyScalars g p cad).1.r_constrained = true ∧
    (∃ cc : CadObj, (applyScalars g p cad).1.r = g.deriveR cc) ∧
    (applyScalars g p cad).2 =
      [FieldEv.fRConstrained, FieldEv.fVolume, FieldEv.fTypeTop,
       FieldEv.fTypeBottom, FieldEv.fDCan, FieldEv.fHFilter,
       FieldEv.fDFilter, FieldEv.fAlignTop, FieldEv.fAlignFilter] := by
  refine ⟨?_, ⟨?_, ?_⟩, ?_⟩
  · simp [applyScalars, setTypeTop, setRConstrainedFalse, h]
  · exact { setRConstrainedFalse g cad with volume := p.volume, type_top := p.type_top, r_constrained := true }
  · simp [applyScalars, setTypeTop, setRConstrainedFalse, h]
  · simp [applyScalars, h]

/-- On a successful validation build, `_updateModule` commits the
scalar phase and then the I/O phase onto the live object, and its
assignment trace is that of `applyScalars`. -/
theorem updateModule_ok (g : Geom) (p : Params) (cad : CadObj)
    (din dout : List (String × SideIOEntry))
    (dtop : List (String × TopIOEntry)) (cv : CadObj)
    (hb : buildCADObject g p = Except.ok cv) :
    (updateModule g p cad din dout dtop).cad =
      (buildIOPhase g din dout dtop (applyScalars g p cad).1).1 ∧
    (updateModule g p cad din dout dtop).trace =
      (applyScalars g p cad).2 := by
  rcases hap : applyScalars g p cad with ⟨c9, tr⟩
  rcases hio : buildIOPhase g din dout dtop c9 with ⟨d, msgs, err⟩
  cases err with
  | some e => simp [updateModule, hb, hap, hio]
  | none =>
    by_cases hrf : g.refreshFails = true <;>
      simp [updateModule, hb, hap, hio, hrf]

/-! ## Claim theorems -/

/-- Claim C1: for every parameter snapshot, if building the disposable
validation object raises, the update commit aborts immediately,
reporting exactly an "Update error", and the live domain object —
every scalar field and all of its attached I/O — is exactly as it was
before the commit attempt; no scalar assignment is applied, no refresh
is attempted, and the commit returns failure. -/
theorem claim1_update_validation_failure_atomic (g : Geom) (p : Params)
    (cad : CadObj) (din dout : List (String × SideIOEntry))
    (dtop : List (String × TopIOEntry)) (h : buildOk g p = false) :
    updateModule g p cad din dout dtop =
      ⟨cad, ["Update error"], [], false, false⟩ := by
  rcases hb : buildCADObject g p with e | cv
  · simp [updateModule, hb]
  · exfalso
    simp [buildOk, hb] at h

theorem claim1_witness :
    updateModule geomBuildFail sampleParams sampleCad [("a", sampleIn)]
        [("default", defaultOutput)] [] =
      ⟨sampleCad, ["Update error"], [], false, false⟩ :=
  claim1_update_validation_failure_atomic geomBuildFail sampleParams
    sampleCad [("a", sampleIn)] [("default", defaultOutput)] []
    (by decide)

/-- Claim C2: for an existing live module whose radius is constrained
and whose top is not threaded, committing an update whose snapshot
switches the top to a threaded style (and hence snapshots
`r_constrained = true`) leaves the live object with the radius
constraint forced true and a radius recalculated by the geometry
collaborator — not the user-entered radius value — and the
radius/radius-constraint assignment is applied to the live object
before all other scalar-field assignments (it heads the assignment
trace). -/
theorem claim2_threaded_top_update (g : Geom) (p : Params)
    (cad : CadObj) (din dout : List (String × SideIOEntry))
    (dtop : List (String × TopIOEntry))
    (hlive_rc : cad.r_constrained = true)
    (hlive_top : Geom.isThreaded g cad.type_top = false)
    (hsnap_rc : p.r_constrained = true)
    (hsnap_top : Geom.isThreaded g p.type_top = true)
    (hv : buildOk g p = true)
    (hder : ∀ c : CadObj, g.deriveR c ≠ p.r) :
    (updateModule g p cad din dout dtop).cad.r_constrained = true ∧
    (updateModule g p cad din dout dtop).cad.r ≠ p.r ∧
    (∃ cc : CadObj,
      (updateModule g p cad din dout dtop).cad.r = g.deriveR cc) ∧
    (updateModule g p cad din dout dtop).trace =
      [FieldEv.fRConstrained, FieldEv.fVolume, FieldEv.fTypeTop,
       FieldEv.fTypeBottom, FieldEv.fDCan, FieldEv.fHFilter,
       FieldEv.fDFilter, FieldEv.fAlignTop, FieldEv.fAlignFilter] := by
  rcases hbv : buildCADObject g p with e | cv
  · exfalso
    simp [buildOk, hbv] at hv
  · obtain ⟨hcad, htr⟩ := updateModule_ok g p cad din dout dtop cv hbv
    obtain ⟨hrc, ⟨cc, hr⟩, htrace⟩ := applyScalars_threaded g p cad hsnap_top
    have hs := buildIOPhase_scalars g din dout dtop (applyScalars g p cad).1
    have hrc2 : (buildIOPhase g din dout dtop (applyScalars g p cad).1).1.r_constrained =
        (applyScalars g p cad).1.r_constrained :=
      congrArg Params.r_constrained hs
    have hr2 : (buildIOPhase g din dout dtop (applyScalars g p cad).1).1.r =
        (applyScalars g p cad).1.r :=
      congrArg Params.r hs
    refine ⟨?_, ?_, ⟨cc, ?_⟩, ?_⟩
    · rw [hcad, hrc2, hrc]
    · rw [hcad, hr2, hr]
      exact hder cc
    · rw [hcad, hr2, hr]
    · rw [htr, htrace]

theorem claim2_witness :
    (updateModule geomOk paramsThreaded sampleCad [] [] []).cad.r_constrained = true ∧
    (updateModule geomOk paramsThreaded sampleCad [] [] []).cad.r ≠ paramsThreaded.r ∧
    (updateModule geomOk paramsThreaded sampleCad [] [] []).trace =
      [FieldEv.fRConstrained, FieldEv.fVolume, FieldEv.fTypeTop,
       FieldEv.fTypeBottom, FieldEv.fDCan, FieldEv.fHFilter,
       FieldEv.fDFilter, FieldEv.fAlignTop, FieldEv.fAlignFilter] :=
  ⟨(claim2_threaded_top_update geomOk paramsThreaded sampleCad [] [] []
      (by decide) (by decide) (by decide) (by decide) (by decide)
      (fun _ => (by decide : (7 : Int) ≠ (5 : Int)))).1,
   (claim2_threaded_top_update geomOk paramsThreaded sampleCad [] [] []
      (by decide) (by decide) (by decide) (by decide) (by decide)
      (fun _ => (by decide : (7 : Int) ≠ (5 : Int)))).2.1,
   (claim2_threaded_top_update geomOk paramsThreaded sampleCad [] [] []
      (by decide) (by decide) (by decide) (by decide) (by decide)
      (fun _ => (by decide : (7 : Int) ≠ (5 : Int)))).2.2.2⟩

/-- Claim C6: for every update commit whose validation build succeeds,
the scalar-field mutations are committed to the live object and are
never rolled back — even when the subsequent I/O attachment fails (in
which case an "I/Os error" is reported, the refresh is skipped and the
commit returns failure, with the updated scalars kept); and when the
I/O phase succeeds but the final refresh call fails, a "Refresh error"
is reported without undoing the commit. -/
theorem claim6_update_no_rollback (g : Geom) (p : Params) (cad : CadObj)
    (din dout : List (String × SideIOEntry))
    (dtop : List (String × TopIOEntry)) (hv : buildOk g p = true) :
    ((updateModule g p cad din dout dtop).cad.volume = p.volume ∧
     (updateModule g p cad din dout dtop).cad.type_top = p.type_top ∧
     (updateModule g p cad din dout dtop).cad.type_bottom = p.type_bottom ∧
     (updateModule g p cad din dout dtop).cad.d_can = p.d_can ∧
     (updateModule g p cad din dout dtop).cad.h_filter = p.h_filter ∧
     (updateModule g p cad din dout dtop).cad.d_filter = p.d_filter ∧
     (updateModule g p cad din dout dtop).cad.align_top_strategy =
       p.align_top_strategy ∧
     (updateModule g p cad din dout dtop).cad.align_filter_strategy =
       p.align_filter_strategy) ∧
    ("I/Os error" ∈ (updateModule g p cad din dout dtop).messages →
      (updateModule g p cad din dout dtop).refreshCalled = false ∧
      (updateModule g p cad din dout dtop).returned = false) ∧
    ("I/Os error" ∉ (updateModule g p cad din dout dtop).messages →
      g.refreshFails = true →
      "Refresh error" ∈ (updateModule g p cad din dout dtop).messages ∧
      (updateModule g p cad din dout dtop).returned = false ∧
      (updateModule g p cad din dout dtop).refreshCalled = true) := by
  rcases hbv : buildCADObject g p with e | cv
  · exfalso
    simp [buildOk, hbv] at hv
  · have hum := updateModule_ok g p cad din dout dtop cv hbv
    obtain ⟨h1, h2, h3, h4, h5, h6, h7, h8⟩ := applyScalars_fields g p cad
    have hs := buildIOPhase_scalars g din dout dtop (applyScalars g p cad).1
    have hmsgs := buildIOPhase_msgs g din dout dtop (applyScalars g p cad).1
    refine ⟨⟨?_, ?_, ?_, ?_, ?_, ?_, ?_, ?_⟩, ?_⟩
    · rw [hum.1]; exact (congrArg Params.volume hs).trans h1
    · rw [hum.1]; exact (congrArg Params.type_top hs).trans h2
    · rw [hum.1]; exact (congrArg Params.type_bottom hs).trans h3
    · rw [hum.1]; exact (congrArg Params.d_can hs).trans h4
    · rw [hum.1]; exact (congrArg Params.h_filter hs).trans h5
    · rw [hum.1]; exact (congrArg Params.d_filter hs).trans h6
    · rw [hum.1]; exact (congrArg Params.align_top_strategy hs).trans h7
    · rw [hum.1]; exact (congrArg Params.align_filter_strategy hs).trans h8
    · rcases hap : applyScalars g p cad with ⟨c9, tr⟩
      rw [hap] at hmsgs
      rcases hio : buildIOPhase g din dout dtop c9 with ⟨d, msgs, err⟩
      rw [hio] at hmsgs
      cases err with
      | some e =>
        have hu : updateModule g p cad din dout dtop =
            ⟨d, msgs ++ ["I/Os error"], tr, false, false⟩ := by
          simp [updateModule, hbv, hap, hio]
        rw [hu]
        constructor
        · intro _
          exact ⟨rfl, rfl⟩
        · intro hnot _
          exact absurd (by simp : "I/Os error" ∈ msgs ++ ["I/Os error"]) hnot
      | none =>
        have hmsgs2 : msgs = [] ∨ msgs = ["Auto-placement error"] := by
          rcases hmsgs with hm | ⟨hm, _⟩
          · exact Or.inl hm
          · exact Or.inr hm
        have hnotin : "I/Os error" ∉ msgs := by
          rcases hmsgs2 with hm | hm <;> rw [hm] <;> decide
        by_cases hrf : g.refreshFails = true
        · have hu : updateModule g p cad din dout dtop =
              ⟨d, msgs ++ ["Refresh error"], tr, true, false⟩ := by
            simp [updateModule, hbv, hap, hio, hrf]
          rw [hu]
          constructor
          · intro hmem
            exfalso
            rcases List.mem_append.mp hmem with hm | hm
            · exact hnotin hm
            · rw [List.mem_singleton] at hm
              exact absurd hm (by decide)
          · intro _ _
            exact ⟨by simp, rfl, rfl⟩
        · have hu : updateModule g p cad din dout dtop =
              ⟨d, msgs, tr, true, true⟩ := by
            simp [updateModule, hbv, hap, hio, hrf]
          rw [hu]
          constructor
          · intro hmem
            exact absurd hmem hnotin
          · intro _ hrf2
            exact absurd hrf2 hrf

theorem claim6_witness :
    ((updateModule geomInputFail sampleParams sampleCad
        [("b", sampleIn)] [] []).cad.volume = sampleParams.volume ∧
      (updateModule geomInputFail sampleParams sampleCad
        [("b", sampleIn)] [] []).cad.h_filter = sampleParams.h_filter) ∧
    (updateModule geomInputFail sampleParams sampleCad
        [("b", sampleIn)] [] []).messages = ["I/Os error"] ∧
    (updateModule geomInputFail sampleParams sampleCad
        [("b", sampleIn)] [] []).refreshCalled = false :=
  ⟨⟨(claim6_update_no_rollback geomInputFail sampleParams sampleCad
        [("b", sampleIn)] [] [] (by decide)).1.1,
    (claim6_update_no_rollback geomInputFail sampleParams sampleCad
        [("b", sampleIn)] [] [] (by decide)).1.2.2.2.2.1⟩,
   by decide,
   ((claim6_update_no_rollback geomInputFail sampleParams sampleCad
        [("b", sampleIn)] [] [] (by decide)).2.1 (by decide)).1⟩

/-- Claim C7: for every create commit, exactly one of three outcomes
holds — construction raises and a "Creation error" is reported with no
partial object kept and the owner's `buildModule` never invoked; or
construction succeeds, an attachment raises, the new object is
discarded entirely, exactly an "I/Os error" is reported, and
`buildModule` is never invoked; or everything succeeds and the built
object is handed to `buildModule`, invoked exactly once, with no
creation or I/O error reported.  Moreover the output loop always skips
the reserved name `"default"`, leaving the collaborator's implicit
default output untouched. -/
theorem claim7_create_all_or_nothing (g : Geom) (p : Params)
    (din dout : List (String × SideIOEntry))
    (dtop : List (String × TopIOEntry)) (c : CadObj) :
    (alistGet (buildOutputs g dout c).1.outputs "default" =
      alistGet c.outputs "default") ∧
    ((buildOk g p = false ∧
      buildNewModule g p din dout dtop =
        ⟨none, ["Creation error"], 0, false⟩) ∨
     (buildOk g p = true ∧
      (buildNewModule g p din dout dtop).built = none ∧
      (buildNewModule g p din dout dtop).buildModuleCalls = 0 ∧
      (buildNewModule g p din dout dtop).messages = ["I/Os error"] ∧
      (buildNewModule g p din dout dtop).returned = false) ∨
     (buildOk g p = true ∧
      (∃ c3, (buildNewModule g p din dout dtop).built = some c3) ∧
      (buildNewModule g p din dout dtop).buildModuleCalls = 1 ∧
      "I/Os error" ∉ (buildNewModule g p din dout dtop).messages ∧
      "Creation error" ∉ (buildNewModule g p din dout dtop).messages ∧
      (buildNewModule g p din dout dtop).returned = true)) := by
  refine ⟨buildOutputs_default g dout c, ?_⟩
  rcases hb : buildCADObject g p with e | cv
  · exact Or.inl ⟨by simp [buildOk, hb], by simp [buildNewModule, hb]⟩
  · have hmsgs := buildIOPhase_msgs g din dout dtop cv
    rcases hio : buildIOPhase g din dout dtop cv with ⟨c3, msgs, err⟩
    rw [hio] at hmsgs
    cases err with
    | some e =>
      have hm : msgs = [] := by
        rcases hmsgs with hm | ⟨_, hnone⟩
        · exact hm
        · exact absurd hnone (by simp)
      have hu : buildNewModule g p din dout dtop =
          ⟨none, msgs ++ ["I/Os error"], 0, false⟩ := by
        simp [buildNewModule, hb, hio]
      refine Or.inr (Or.inl ⟨by simp [buildOk, hb], ?_, ?_, ?_, ?_⟩) <;>
        simp [hu, hm]
    | none =>
      have hmsgs2 : msgs = [] ∨ msgs = ["Auto-placement error"] := by
        rcases hmsgs with hm | ⟨hm, _⟩
        · exact Or.inl hm
        · exact Or.inr hm
      have hu : buildNewModule g p din dout dtop =
          ⟨some c3, msgs, 1, true⟩ := by
        simp [buildNewModule, hb, hio]
      refine Or.inr (Or.inr ⟨by simp [buildOk, hb], ⟨c3, ?_⟩, ?_, ?_, ?_, ?_⟩) <;>
        rcases hmsgs2 with hm | hm <;> simp [hu, hm]

/-- Claim C9: the top-inlet build step never unwinds the inputs and
outputs already attached in the same pass; an incompatibility raised
while attaching a top inlet is swallowed — nothing is reported and no
exception propagates, the step simply ends; and a collision raised by
the auto-placement call aborts only the top-inlet step, reporting
exactly an "Auto-placement error" without propagating an exception. -/
theorem claim9_top_inlet_incompat_and_collision (g : Geom)
    (d : List (String × TopIOEntry)) (c : CadObj) :
    ((buildTopInlets g d c).1.inputs = c.inputs ∧
     (buildTopInlets g d c).1.outputs = c.outputs) ∧
    ((attachTopInlets g d c).2 = some CadErr.incompat →
      (buildTopInlets g d c).2.1 = [] ∧
      (buildTopInlets g d c).2.2 = none ∧
      (buildTopInlets g d c).1 = (attachTopInlets g d c).1) ∧
    ((attachTopInlets g d c).2 = none →
      g.autoPlaceErr (attachTopInlets g d c).1 = some CadErr.constraint →
      (buildTopInlets g d c).2.1 = ["Auto-placement error"] ∧
      (buildTopInlets g d c).2.2 = none) := by
  refine ⟨buildTopInlets_inputs_outputs g d c, ?_, ?_⟩
  · rcases hat : attachTopInlets g d c with ⟨c1, err⟩
    intro h
    have h2 : err = some CadErr.incompat := h
    subst h2
    simp [buildTopInlets, hat]
  · rcases hat : attachTopInlets g d c with ⟨c1, err⟩
    intro h hap
    have h2 : err = none := h
    subst h2
    have hap2 : g.autoPlaceErr c1 = some CadErr.constraint := hap
    simp [buildTopInlets, hat, hap2]

theorem claim9_witness :
    ((buildTopInlets geomIncompat [("t", sampleTop)] sampleCad).2.1 = [] ∧
     (buildTopInlets geomIncompat [("t", sampleTop)] sampleCad).2.2 = none ∧
     (buildTopInlets geomIncompat [("t", sampleTop)] sampleCad).1 =
       (attachTopInlets geomIncompat [("t", sampleTop)] sampleCad).1) ∧
    ((buildTopInlets geomCollide [("t", sampleTop)] sampleCad).2.1 =
       ["Auto-placement error"] ∧
     (buildTopInlets geomCollide [("t", sampleTop)] sampleCad).2.2 = none) :=
  ⟨(claim9_top_inlet_incompat_and_collision geomIncompat
      [("t", sampleTop)] sampleCad).2.1 (by decide),
   (claim9_top_inlet_incompat_and_collision geomCollide
      [("t", sampleTop)] sampleCad).2.2 (by decide) (by decide)⟩

/-- Claim C10: when the dialog runs in test mode (constructed with
`parent=None`, which sets `self.test = True`), clicking OK only
snapshots the form into the parameter store and closes the dialog: the
outcome is the same for every collaborator oracle, the live object is
untouched, nothing is handed to the owner, `buildModule` is invoked
zero times, no refresh is attempted and no error is reported. -/
theorem claim10_test_mode_commit_noop (g g' : Geom) (cad : Option CadObj)
    (din dout : List (String × SideIOEntry))
    (dtop : List (String × TopIOEntry)) (f : Form) :
    buildModuleSlot g true cad din dout dtop f =
      ⟨cad, none, 0, false, [], true, readForm f⟩ ∧
    buildModuleSlot g true cad din dout dtop f =
      buildModuleSlot g' true cad din dout dtop f := by
  constructor <;> simp [buildModuleSlot]

/-- Claim C3 counterexample: while editing a live module, one single
registry delete operation — before any commit — already mutates the
live CAD object (its `inputs` collection loses the deleted name), so
the registry is not a pure staging area for deletions. -/
theorem claim3_counterexample :
    (deleteIOSlot sampleEditor (some 0)).1.cad_obj ≠
      sampleEditor.cad_obj := by
  decide

/-- Claim C3 (amended): the add/edit registry operations
(`addInput` / `addOutput` / `addTopInlet`) never mutate the live CAD
object — only commit flushes them — but a registry delete of a
side-input row mutates the live object immediately, removing the
same-named descriptor from its own `inputs` collection. -/
theorem claim3_adds_stage_deletes_mutate (st : EditorState) (n : String)
    (p q : SideIOEntry) (t : TopIOEntry) (i : Nat) (r : Row)
    (c : CadObj) (hget : st.io_table[i]? = some r)
    (hr : r.io_type = SIDE_INPUT) (hc : st.cad_obj = some c) :
    (addInput st n p).cad_obj = st.cad_obj ∧
    (addOutput st n q).cad_obj = st.cad_obj ∧
    (addTopInlet st n t).cad_obj = st.cad_obj ∧
    (deleteIOSlot st (some i)).1.cad_obj =
      some { c with inputs := alistErase c.inputs r.name } := by
  refine ⟨rfl, rfl, rfl, ?_⟩
  have hne : r.io_type ≠ DEF_OUTPUT := by
    rw [hr]
    decide
  simp [deleteIOSlot, hget, hr, hc, hne, sideInput_ne_defOutput]

theorem claim3_witness :
    (addInput sampleEditor "x" sampleOut).cad_obj =
      sampleEditor.cad_obj ∧
    (deleteIOSlot sampleEditor (some 0)).1.cad_obj =
      some { sampleCad with
               inputs := alistErase sampleCad.inputs rowIn.name } :=
  ⟨(claim3_adds_stage_deletes_mutate sampleEditor "x" sampleOut sampleOut
      sampleTop 0 rowIn sampleCad (by decide) (by decide) (by decide)).1,
   (claim3_adds_stage_deletes_mutate sampleEditor "x" sampleOut sampleOut
      sampleTop 0 rowIn sampleCad (by decide) (by decide) (by decide)).2.2.2⟩

/-- Claim C4: for every kind (side input, side output, top inlet),
adding a descriptor under a name that is new for that kind's mapping
appends exactly one visible row — the row count for that kind, and the
whole table length, grow by exactly one — and stores the descriptor;
adding under an existing name leaves the table untouched and replaces
the stored descriptor in place (same mapping size, new value). -/
theorem claim4_add_or_update (st : EditorState) (n : String)
    (p q : SideIOEntry) (t : TopIOEntry)
    (hp : p.io_type = SIDE_INPUT) (hq : q.io_type = SIDE_OUTPUT)
    (ht : t.io_type = "custom" ∨ t.io_type = "luer") :
    (alistHas st.dict_inputs n = false →
      countKind (addInput st n p).io_table 0 =
        countKind st.io_table 0 + 1 ∧
      (addInput st n p).io_table.length = st.io_table.length + 1 ∧
      alistGet (addInput st n p).dict_inputs n = some p) ∧
    (alistHas st.dict_inputs n = true →
      (addInput st n p).io_table = st.io_table ∧
      (addInput st n p).dict_inputs.length = st.dict_inputs.length ∧
      alistGet (addInput st n p).dict_inputs n = some p) ∧
    (alistHas st.dict_outputs n = false →
      countKind (addOutput st n q).io_table 1 =
        countKind st.io_table 1 + 1 ∧
      (addOutput st n q).io_table.length = st.io_table.length + 1 ∧
      alistGet (addOutput st n q).dict_outputs n = some q) ∧
    (alistHas st.dict_outputs n = true →
      (addOutput st n q).io_table = st.io_table ∧
      (addOutput st n q).dict_outputs.length = st.dict_outputs.length ∧
      alistGet (addOutput st n q).dict_outputs n = some q) ∧
    (alistHas st.dict_top_inlets n = false →
      countKind (addTopInlet st n t).io_table 2 =
        countKind st.io_table 2 + 1 ∧
      (addTopInlet st n t).io_table.length = st.io_table.length + 1 ∧
      alistGet (addTopInlet st n t).dict_top_inlets n = some t) ∧
    (alistHas st.dict_top_inlets n = true →
      (addTopInlet st n t).io_table = st.io_table ∧
      (addTopInlet st n t).dict_top_inlets.length =
        st.dict_top_inlets.length ∧
      alistGet (addTopInlet st n t).dict_top_inlets n = some t) := by
  refine ⟨?_, ?_, ?_, ?_, ?_, ?_⟩
  · intro h
    have htab : (addInput st n p).io_table =
        addNewRow st.io_table n p.io_type false := by
      simp [addInput, h]
    refine ⟨?_, ?_, alistGet_set_self st.dict_inputs n p⟩
    · rw [htab]
      exact countKind_addNewRow st.io_table n p.io_type false 0
        (by rw [hp]; decide)
    · rw [htab]
      exact addNewRow_length st.io_table n p.io_type false
  · intro h
    have htab : (addInput st n p).io_table = st.io_table := by
      simp [addInput, h]
    exact ⟨htab, alistSet_length_of_has st.dict_inputs n p h,
           alistGet_set_self st.dict_inputs n p⟩
  · intro h
    have htab : (addOutput st n q).io_table =
        addNewRow st.io_table n q.io_type false := by
      simp [addOutput, h]
    refine ⟨?_, ?_, alistGet_set_self st.dict_outputs n q⟩
    · rw [htab]
      exact countKind_addNewRow st.io_table n q.io_type false 1
        (by rw [hq]; decide)
    · rw [htab]
      exact addNewRow_length st.io_table n q.io_type false
  · intro h
    have htab : (addOutput st n q).io_table = st.io_table := by
      simp [addOutput, h]
    exact ⟨htab, alistSet_length_of_has st.dict_outputs n q h,
           alistGet_set_self st.dict_outputs n q⟩
  · intro h
    have htab : (addTopInlet st n t).io_table =
        addNewRow st.io_table n t.io_type false := by
      simp [addTopInlet, h]
    refine ⟨?_, ?_, alistGet_set_self st.dict_top_inlets n t⟩
    · rw [htab]
      refine countKind_addNewRow st.io_table n t.io_type false 2 ?_
      rcases ht with h2 | h2 <;> rw [h2] <;> decide
    · rw [htab]
      exact addNewRow_length st.io_table n t.io_type false
  · intro h
    have htab : (addTopInlet st n t).io_table = st.io_table := by
      simp [addTopInlet, h]
    exact ⟨htab, alistSet_length_of_has st.dict_top_inlets n t h,
           alistGet_set_self st.dict_top_inlets n t⟩

theorem claim4_witness :
    (countKind (addInput sampleEditor "b" sampleIn).io_table 0 =
       countKind sampleEditor.io_table 0 + 1 ∧
     alistGet (addInput sampleEditor "b" sampleIn).dict_inputs "b" =
       some sampleIn) ∧
    ((addInput sampleEditor "a" sampleIn).io_table =
       sampleEditor.io_table ∧
     alistGet (addInput sampleEditor "a" sampleIn).dict_inputs "a" =
       some sampleIn) ∧
    (countKind (addTopInlet sampleEditor "t" sampleTop).io_table 2 =
       countKind sampleEditor.io_table 2 + 1) :=
  ⟨⟨((claim4_add_or_update sampleEditor "b" sampleIn sampleOut sampleTop
        (by decide) (by decide) (Or.inl (by decide))).1 (by decide)).1,
    ((claim4_add_or_update sampleEditor "b" sampleIn sampleOut sampleTop
        (by decide) (by decide) (Or.inl (by decide))).1 (by decide)).2.2⟩,
   ⟨((claim4_add_or_update sampleEditor "a" sampleIn sampleOut sampleTop
        (by decide) (by decide) (Or.inl (by decide))).2.1 (by decide)).1,
    ((claim4_add_or_update sampleEditor "a" sampleIn sampleOut sampleTop
        (by decide) (by decide) (Or.inl (by decide))).2.1 (by decide)).2.2⟩,
   ((claim4_add_or_update sampleEditor "t" sampleIn sampleOut sampleTop
        (by decide) (by decide) (Or.inl (by decide))).2.2.2.2.1
      (by decide)).1⟩

/-- Claim C5: deleting with no entry selected is a no-op reported only
by the no-selection debug message; deleting the reserved default
output's row is always rejected as a silent no-op; deleting any other
selected row removes exactly that row and its descriptor from the
kind's mapping, after which no row for that (name, kind) remains — so
a second delete of the same name is impossible (any later delete
without a selection stays a no-op) — and in every case the reserved
`"default"` output survives, both in the staged output mapping and in
the live CAD object's own outputs. -/
theorem claim5_delete_semantics (st : EditorState) (i : Nat) (r : Row)
    (hwf : wfTable st = true) (hget : st.io_table[i]? = some r) :
    (deleteIOSlot st none = (st, ["No I/O selected, can't delete"])) ∧
    (r.io_type = DEF_OUTPUT → deleteIOSlot st (some i) = (st, [])) ∧
    (r.io_type ≠ DEF_OUTPUT →
      (deleteIOSlot st (some i)).1.io_table = st.io_table.eraseIdx i ∧
      hasConflictRow (deleteIOSlot st (some i)).1.io_table r = false ∧
      (r.io_type = SIDE_INPUT →
        alistHas (deleteIOSlot st (some i)).1.dict_inputs r.name =
          false) ∧
      (r.io_type = SIDE_OUTPUT →
        alistHas (deleteIOSlot st (some i)).1.dict_outputs r.name =
          false) ∧
      (r.io_type ≠ SIDE_INPUT → r.io_type ≠ SIDE_OUTPUT →
        alistHas (deleteIOSlot st (some i)).1.dict_top_inlets r.name =
          false)) ∧
    (alistHas (deleteIOSlot st (some i)).1.dict_outputs "default" =
       alistHas st.dict_outputs "default" ∧
     Option.map (fun c => alistHas c.outputs "default")
         (deleteIOSlot st (some i)).1.cad_obj =
       Option.map (fun c => alistHas c.outputs "default") st.cad_obj) := by
  have hnd : nodupRows st.io_table = true := by
    simp only [wfTable, Bool.and_eq_true] at hwf
    exact hwf.1
  have hnodef : ∀ x ∈ st.io_table,
      ¬(x.name = "default" ∧ x.io_type = SIDE_OUTPUT) := by
    simp only [wfTable, Bool.and_eq_true, List.all_eq_true] at hwf
    intro x hx
    have := hwf.2 x hx
    intro hcontra
    rw [hcontra.1, hcontra.2] at this
    simp at this
  refine ⟨rfl, ?_, ?_, ?_⟩
  · intro h
    simp [deleteIOSlot, hget, h]
  · intro h
    have hconf : ∀ x ∈ st.io_table.eraseIdx i, rowsConflict r x = false :=
      nodupRows_eraseIdx st.io_table i r hnd hget
    have hconf2 : hasConflictRow (st.io_table.eraseIdx i) r = false :=
      hasConflictRow_eq_false _ r hconf
    by_cases h1 : r.io_type = SIDE_INPUT
    · have hdel : (deleteIOSlot st (some i)).1 =
          { st with
              dict_inputs := alistErase st.dict_inputs r.name,
              cad_obj := Option.map
                (fun c => { c with
                              inputs := alistErase c.inputs r.name })
                st.cad_obj,
              io_table := st.io_table.eraseIdx i } := by
        simp [deleteIOSlot, hget, h, h1, sideInput_ne_defOutput]
      rw [hdel]
      refine ⟨rfl, hconf2, fun _ => alistHas_erase_self _ _, ?_, ?_⟩
      · intro h2
        rw [h1] at h2
        exact absurd h2 (by decide)
      · intro h2 _
        exact absurd h1 h2
    · by_cases h2 : r.io_type = SIDE_OUTPUT
      · have hdel : (deleteIOSlot st (some i)).1 =
            { st with
                dict_outputs := alistErase st.dict_outputs r.name,
                cad_obj := Option.map
                  (fun c => { c with
                                outputs := alistErase c.outputs r.name })
                  st.cad_obj,
                io_table := st.io_table.eraseIdx i } := by
          simp [deleteIOSlot, hget, h, h1, h2, sideOutput_ne_defOutput, sideOutput_ne_sideInput]
        rw [hdel]
        refine ⟨rfl, hconf2, ?_, fun _ => alistHas_erase_self _ _, ?_⟩
        · intro h3
          exact absurd h3 h1
        · intro _ h3
          exact absurd h2 h3
      · have hdel : (deleteIOSlot st (some i)).1 =
            { st with
                dict_top_inlets := alistErase st.dict_top_inlets r.name,
                cad_obj := Option.map
                  (fun c => { c with
                                top_inlets :=
                                  alistErase c.top_inlets r.name })
                  st.cad_obj,
                io_table := st.io_table.eraseIdx i } := by
          simp [deleteIOSlot, hget, h, h1, h2, sideOutput_ne_defOutput, sideOutput_ne_sideInput]
        rw [hdel]
        refine ⟨rfl, hconf2, ?_, ?_, fun _ _ => alistHas_erase_self _ _⟩
        · intro h3
          exact absurd h3 h1
        · intro h3
          exact absurd h3 h2
  · by_cases h : r.io_type = DEF_OUTPUT
    · have hdel : deleteIOSlot st (some i) = (st, []) := by
        simp [deleteIOSlot, hget, h]
      rw [hdel]
      exact ⟨rfl, rfl⟩
    · by_cases h1 : r.io_type = SIDE_INPUT
      · have hdel : (deleteIOSlot st (some i)).1 =
            { st with
                dict_inputs := alistErase st.dict_inputs r.name,
                cad_obj := Option.map
                  (fun c => { c with
                                inputs := alistErase c.inputs r.name })
                  st.cad_obj,
                io_table := st.io_table.eraseIdx i } := by
          simp [deleteIOSlot, hget, h, h1, sideInput_ne_defOutput]
        rw [hdel]
        refine ⟨rfl, ?_⟩
        cases st.cad_obj with
        | none => rfl
        | some c => rfl
      · by_cases h2 : r.io_type = SIDE_OUTPUT
        · have hname : r.name ≠ "default" := by
            intro hcontra
            exact hnodef r (List.getElem?_mem hget) ⟨hcontra, h2⟩
          have hdel : (deleteIOSlot st (some i)).1 =
              { st with
                  dict_outputs := alistErase st.dict_outputs r.name,
                  cad_obj := Option.map
                    (fun c => { c with
                                  outputs :=
                                    alistErase c.outputs r.name })
                    st.cad_obj,
                  io_table := st.io_table.eraseIdx i } := by
            simp [deleteIOSlot, hget, h, h1, h2, sideOutput_ne_defOutput, sideOutput_ne_sideInput]
          rw [hdel]
          refine ⟨alistHas_erase_ne st.dict_outputs r.name "default"
                    (Ne.symm hname), ?_⟩
          cases st.cad_obj with
          | none => rfl
          | some c =>
            show some (alistHas (alistErase c.outputs r.name) "default") =
              some (alistHas c.outputs "default")
            rw [alistHas_erase_ne c.outputs r.name "default"
                  (Ne.symm hname)]
        · have hdel : (deleteIOSlot st (some i)).1 =
              { st with
                  dict_top_inlets :=
                    alistErase st.dict_top_inlets r.name,
                  cad_obj := Option.map
                    (fun c => { c with
                                  top_inlets :=
                                    alistErase c.top_inlets r.name })
                    st.cad_obj,
                  io_table := st.io_table.eraseIdx i } := by
            simp [deleteIOSlot, hget, h, h1, h2, sideOutput_ne_defOutput, sideOutput_ne_sideInput]
          rw [hdel]
          refine ⟨rfl, ?_⟩
          cases st.cad_obj with
          | none => rfl
          | some c => rfl

theorem claim5_witness :
    (deleteIOSlot sampleEditor none =
      (sampleEditor, ["No I/O selected, can't delete"])) ∧
    (deleteIOSlot sampleEditor (some 1) = (sampleEditor, [])) ∧
    hasConflictRow (deleteIOSlot sampleEditor (some 0)).1.io_table
      rowIn = false ∧
    alistHas (deleteIOSlot sampleEditor (some 0)).1.dict_inputs "a" =
      false ∧
    alistHas (deleteIOSlot sampleEditor (some 0)).1.dict_outputs
      "default" = true :=
  ⟨(claim5_delete_semantics sampleEditor 0 rowIn (by decide)
      (by decide)).1,
   (claim5_delete_semantics sampleEditor 1 rowDef (by decide)
      (by decide)).2.1 (by decide),
   ((claim5_delete_semantics sampleEditor 0 rowIn (by decide)
      (by decide)).2.2.1 (by decide)).2.1,
   (((claim5_delete_semantics sampleEditor 0 rowIn (by decide)
      (by decide)).2.2.1 (by decide)).2.2.1 (by decide)),
   by decide⟩

/-- The widget invariant is preserved by every user event: selecting a
top type re-runs `topTypeChanged`, toggling the constraint check box
(possible only while enabled) re-runs `rConstraintChanged`. -/
theorem widgetInv_step (g : Geom) (w : WidgetState) (e : Ev)
    (h : widgetInv g w) : widgetInv g (stepEv g w e) := by
  cases e with
  | selectTop t =>
    by_cases heq : w.top_text = t
    · simpa [stepEv, heq] using h
    · by_cases hth : Geom.isThreaded g t = true
      · by_cases hcs : w.check_r_state = true <;>
          simp [stepEv, heq, topTypeChanged, topTypeChangedT,
                setCheckState, rConstraintChanged, widgetInv, hth, hcs]
      · have h1 := h.1
        simp only [Bool.not_eq_true] at hth
        simp [stepEv, heq, topTypeChanged, topTypeChangedT, widgetInv,
              hth]
        intro hsp
        exact (h1 hsp).1
  | toggleCheck =>
    by_cases hen : w.check_r_enabled = true
    · have hth : Geom.isThreaded g w.top_text = false := by
        by_cases hth2 : Geom.isThreaded g w.top_text = true
        · exact absurd (h.2 hth2).2.1 (by simp [hen])
        · simpa using hth2
      by_cases hcs : w.check_r_state = true <;>
        simp [stepEv, hen, rConstraintChanged, widgetInv, hth, hcs]
    · simpa [stepEv, hen] using h

/-- The widget invariant holds after any event sequence, provided it
holds initially. -/
theorem widgetInv_run (g : Geom) (w : WidgetState) (evs : List Ev)
    (h : widgetInv g w) : widgetInv g (runEvents g w evs) := by
  induction evs generalizing w with
  | nil => exact h
  | cons e rest ih => exact ih (stepEv g w e) (widgetInv_step g w e h)

/-- Claim C8 counterexample: the claimed equivalence "radius editable
iff radius_constrained ∧ top not threaded" fails on a reachable widget
state — check the constraint box, switch the top to the threaded
style, then switch back: the box is still checked and the top is no
longer threaded, yet the radius spin box stays disabled (the
non-threaded branch of `topTypeChanged` only re-enables the check
box). -/
theorem claim8_counterexample :
    ¬ radiusEditableSpec geomOk
        (runEvents geomOk (initWidgets "A")
          [Ev.toggleCheck, Ev.selectTop "Threaded cap",
           Ev.selectTop "A"]) := by
  unfold radiusEditableSpec
  decide

/-- Claim C8 (amended): on every state reachable from a fresh dialog
whose initial top type is not threaded, the radius field is editable
only if the constraint box is checked and the top is not threaded (the
converse direction fails, see the counterexample); whenever the top is
threaded, the constraint box is forced checked and disabled and the
radius field is not editable; and in `topTypeChanged` the check box is
forced checked strictly before the radius field is disabled and the
check box disabled (the action trace is forceCheck, disableSpin,
disableCheck). -/
theorem claim8_constraint_resolution (g : Geom) (t0 : String)
    (evs : List Ev) (w' : WidgetState)
    (h0 : Geom.isThreaded g t0 = false)
    (hthr : Geom.isThreaded g w'.top_text = true) :
    widgetInv g (runEvents g (initWidgets t0) evs) ∧
    (topTypeChangedT g w').2 =
      [Act.forceCheck, Act.disableSpin, Act.disableCheck] ∧
    (topTypeChangedT g w').1.check_r_state = true ∧
    (topTypeChangedT g w').1.spin_r_enabled = false ∧
    (topTypeChangedT g w').1.check_r_enabled = false := by
  refine ⟨widgetInv_run g _ evs ?_, ?_, ?_, ?_, ?_⟩
  · constructor
    · intro hsp
      exact absurd hsp (by simp [initWidgets])
    · intro hth
      rw [initWidgets] at hth
      exact absurd hth (by simp [h0])
  · simp [topTypeChangedT, hthr]
  · by_cases hcs : w'.check_r_state = true <;>
      simp [topTypeChangedT, setCheckState, rConstraintChanged, hthr,
            hcs]
  · simp [topTypeChangedT, hthr]
  · simp [topTypeChangedT, hthr]

theorem claim8_witness :
    widgetInv geomOk
      (runEvents geomOk (initWidgets "A")
        [Ev.toggleCheck, Ev.selectTop "Threaded cap",
         Ev.selectTop "A"]) ∧
    (topTypeChangedT geomOk widgetThreaded).2 =
      [Act.forceCheck, Act.disableSpin, Act.disableCheck] ∧
    (topTypeChangedT geomOk widgetThreaded).1.check_r_state = true :=
  ⟨(claim8_constraint_resolution geomOk "A"
      [Ev.toggleCheck, Ev.selectTop "Threaded cap", Ev.selectTop "A"]
      widgetThreaded (by decide) (by decide)).1,
   (claim8_constraint_resolution geomOk "A"
      [Ev.toggleCheck, Ev.selectTop "Threaded cap", Ev.selectTop "A"]
      widgetThreaded (by decide) (by decide)).2.1,
   (claim8_constraint_resolution geomOk "A"
      [Ev.toggleCheck, Ev.selectTop "Threaded cap", Ev.selectTop "A"]
      widgetThreaded (by decide) (by decide)).2.2.1⟩

end ChemSCAD
